import Mathlib

/-!
Shallow embedding of `roles/lib_utils/action_plugins/sanity_checks.py`
(openshift-ansible sanity-check action plugin).

Inventory variable values are modelled by `AVal`: Python `None`, `bool`,
`int`, `str`, `list` and `dict` (string-keyed, as the plugin only ever
uses string keys).  Floating point values do not occur in the checks and
are outside the model.  Checks that can raise `AnsibleModuleError` (or any
other Python exception, which the runner also surfaces as a failure) are
embedded as `Except String`, the `String` being the exception message.
Templating (`self._templar.template`) is the identity here: hostvars hold
already-resolved values, matching the resolved-value phrasing of the spec.
-/

namespace SanityChecks

inductive AVal where
  | vnone : AVal
  | vbool : Bool → AVal
  | vint : Int → AVal
  | vstr : String → AVal
  | vlist : List AVal → AVal
  | vdict : List (String × AVal) → AVal
deriving Repr

/-- Python `==` on the modelled values.  `bool` and `int` compare
numerically (`True == 1`, `False == 0`); lists and dicts compare
elementwise (dict comparison is order-sensitive here; the plugin never
compares two containers, so this simplification is unobservable). -/
def pyEq : AVal → AVal → Bool
  | .vnone, .vnone => true
  | .vbool a, .vbool b => a == b
  | .vbool a, .vint n => n == (if a then (1 : Int) else 0)
  | .vint n, .vbool b => n == (if b then (1 : Int) else 0)
  | .vint m, .vint n => m == n
  | .vstr s, .vstr t => s == t
  | .vlist a, .vlist b => pyEqList a b
  | .vdict a, .vdict b => pyEqDict a b
  | _, _ => false
where
  pyEqList : List AVal → List AVal → Bool
    | [], [] => true
    | a :: as, b :: bs => pyEq a b && pyEqList as bs
    | _, _ => false
  pyEqDict : List (String × AVal) → List (String × AVal) → Bool
    | [], [] => true
    | (k, a) :: as, (l, b) :: bs => k == l && pyEq a b && pyEqDict as bs
    | _, _ => false

/-- Python truthiness (`bool(x)`): `None`/`False`/`0`/empty containers are
falsy, everything else truthy. -/
def pyTruthy : AVal → Bool
  | .vnone => false
  | .vbool b => b
  | .vint n => n != 0
  | .vstr s => s != ""
  | .vlist l => !l.isEmpty
  | .vdict d => !d.isEmpty

/-- Python `len(x)`: defined for `str`, `list`, `dict`; raises `TypeError`
otherwise. -/
def pyLen : AVal → Except String Nat
  | .vstr s => .ok s.length
  | .vlist l => .ok l.length
  | .vdict d => .ok d.length
  | _ => .error "TypeError: object has no len()"

/-- Association list lookup used for dicts and for hostvars maps. -/
def lookupKey (d : List (String × AVal)) (k : String) : Option AVal :=
  match d with
  | [] => none
  | (k0, v) :: rest => if k0 == k then some v else lookupKey rest k

/-- Python subscript `x[k]` with a string key: `KeyError` for a dict
missing the key, `TypeError` for non-dicts (subscripting `None`, an int, a
string or a list with a string key all raise). -/
def pySubscript (v : AVal) (k : String) : Except String AVal :=
  match v with
  | .vdict d =>
    match lookupKey d k with
    | some x => .ok x
    | none => .error ("KeyError: " ++ k)
  | _ => .error ("TypeError: value is not subscriptable with key " ++ k)

/-- The apostrophe character, used by Python `repr` of strings. -/
def sq : String := String.singleton (Char.ofNat 39)

/-- Python `repr(x)` for the modelled values (string escaping inside
reprs is simplified; the plugin never formats a string holding quote
characters). -/
def pyRepr : AVal → String
  | .vnone => "None"
  | .vbool true => "True"
  | .vbool false => "False"
  | .vint n => toString n
  | .vstr s => sq ++ s ++ sq
  | .vlist l => "[" ++ String.intercalate ", " (pyReprList l) ++ "]"
  | .vdict d => "\x7b" ++ String.intercalate ", " (pyReprDict d) ++ "\x7d"
where
  pyReprList : List AVal → List String
    | [] => []
    | a :: as => pyRepr a :: pyReprList as
  pyReprDict : List (String × AVal) → List String
    | [] => []
    | (k, a) :: as => (sq ++ k ++ sq ++ ": " ++ pyRepr a) :: pyReprDict as

/-- Python `str(x)`: like `repr` except that strings print unquoted
(containers use the `repr` of their elements, as Python does). -/
def pyStr : AVal → String
  | .vstr s => s
  | v => pyRepr v

-- Valid values for openshift_deployment_type
def VALID_DEPLOYMENT_TYPES : List String := ["origin", "openshift-enterprise"]

-- Tuple of variable names and default values if undefined.
def NET_PLUGIN_LIST : List (String × Bool) :=
  [("openshift_use_openshift_sdn", true),
   ("openshift_use_flannel", false),
   ("openshift_use_nuage", false),
   ("openshift_use_contiv", false),
   ("openshift_use_calico", false),
   ("openshift_use_kuryr", false)]

def STORAGE_KIND_TUPLE : List String :=
  ["openshift_hosted_registry_storage_kind",
   "openshift_loggingops_storage_kind",
   "openshift_logging_storage_kind",
   "openshift_metrics_storage_kind",
   "openshift_prometheus_alertbuffer_storage_kind",
   "openshift_prometheus_alertmanager_storage_kind",
   "openshift_prometheus_storage_kind"]

/-- Embeds `to_bool`: the tuple `yes_list` from the source. -/
def yes_list : List AVal :=
  [.vbool true, .vint 1, .vstr "True", .vstr "1", .vstr "true", .vstr "TRUE",
   .vstr "Yes", .vstr "yes", .vstr "Y", .vstr "y", .vstr "YES",
   .vstr "on", .vstr "ON", .vstr "On"]

/-- Embeds `to_bool(var_to_check)`: Python membership `var_to_check in yes_list`
tests `==` against each element. -/
def to_bool (var_to_check : AVal) : Bool :=
  yes_list.any (fun e => pyEq var_to_check e)

/-- Resolved variables of one host. -/
abbrev Vars := List (String × AVal)

/-- Embeds `hostvars`: mapping from host name to its variables. -/
abbrev HostVars := List (String × Vars)

def lookupHost (hostvars : HostVars) (host : String) : Option Vars :=
  match hostvars with
  | [] => none
  | (h0, v) :: rest => if h0 == host then some v else lookupHost rest host

/-- Embeds `template_var(self, hostvars, host, varname)`: `hostvars[host]` raises
for an unknown host; `.get(varname)` yields `None` for a missing variable;
templating of an already-resolved value is the identity. -/
def template_var (hostvars : HostVars) (host varname : String) :
    Except String AVal :=
  match lookupHost hostvars host with
  | none => .error ("KeyError: " ++ host)
  | some vars => .ok ((lookupKey vars varname).getD .vnone)

/-- Embeds `check_openshift_deployment_type(self, hostvars, host)`. -/
def deployment_type_error_msg : String :=
  "openshift_deployment_type must be defined and one of " ++
    String.intercalate ", " VALID_DEPLOYMENT_TYPES

def check_openshift_deployment_type (hostvars : HostVars) (host : String) :
    Except String AVal := do
  let openshift_deployment_type ←
    template_var hostvars host "openshift_deployment_type"
  -- `if openshift_deployment_type not in VALID_DEPLOYMENT_TYPES`
  if VALID_DEPLOYMENT_TYPES.any
      (fun s => pyEq openshift_deployment_type (.vstr s)) then
    return openshift_deployment_type
  else
    throw deployment_type_error_msg

def fedora_python_msg : String :=
  "openshift-ansible requires Python 3 for Fedora;" ++
  " For information on enabling Python 3 with Ansible," ++
  " see https://docs.ansible.com/ansible/python_3_support.html"

/-- Embeds `check_python_version(self, hostvars, host, distro)`.  Both branches
evaluate `ansible_python[version][major]` in their `if` condition, so the
subscripting (which may itself raise) is hoisted above the branch.  The
non-Fedora branch of the source constructs a message string but never
raises it, so it is a no-op here. -/
def check_python_version (hostvars : HostVars) (host : String)
    (distro : AVal) : Except String Unit := do
  let ansible_python ← template_var hostvars host "ansible_python"
  let version ← pySubscript ansible_python "version"
  let major ← pySubscript version "major"
  if pyEq distro (.vstr "Fedora") then
    if !pyEq major (.vint 3) then
      throw fedora_python_msg
    else
      return ()
  else
    -- source line 94: msg is assigned but no raise follows
    if !pyEq major (.vint 2) then
      return ()
    else
      return ()

/-- First return of `spanDigits`: the maximal digit prefix; second: the
remainder.  Models `\d+` (ASCII digits; the checked tags are ASCII). -/
def spanDigits : List Char → List Char × List Char
  | [] => ([], [])
  | c :: cs =>
    if c.isDigit then
      let (d, r) := spanDigits cs
      (c :: d, r)
    else
      ([], c :: cs)

/-- Embeds `ORIGIN_TAG_REGEX`: `re.match` of `(^v?\d+\.\d+.*)` — an optional `v`,
one or more digits, a dot, one or more digits, then anything (the pattern
is not end-anchored, so a matching prefix suffices).  `v` is not a digit,
so the optional `v` is consumed exactly when the string starts with it. -/
def matchOriginTag (s : String) : Bool :=
  let cs :=
    match s.toList with
    | 'v' :: rest => rest
    | cs => cs
  match spanDigits cs with
  | ([], _) => false
  | (_ :: _, r) =>
    match r with
    | '.' :: r2 =>
      match spanDigits r2 with
      | ([], _) => false
      | (_ :: _, _) => true
    | _ => false

/-- States of the deterministic automaton recognising the enterprise
pattern `^v\d+\.\d+(\.\d+)*(-\d+(\.\d+)*)?$`.  The pattern is a
deterministic regular expression (each alternative begins with a distinct
character class), so the automaton recognises exactly its language. -/
inductive EntState where
  | expectV : EntState      -- before the mandatory `v`
  | firstDigit : EntState   -- expecting the first digit of the first `\d+`
  | firstNum : EntState     -- inside the first `\d+`
  | secondDigit : EntState  -- expecting the first digit after the first dot
  | preDashNum : EntState   -- inside a pre-dash `\d+` (accepting)
  | preDashDigit : EntState -- expecting the first digit after a later dot
  | dashDigit : EntState    -- expecting the first digit after `-`
  | postDashNum : EntState  -- inside a post-dash `\d+` (accepting)
  | postDashDigit : EntState -- expecting the first digit after a post-dash dot

def entAccept : EntState → Bool
  | .preDashNum => true
  | .postDashNum => true
  | _ => false

def entStep (s : EntState) (c : Char) : Option EntState :=
  match s with
  | .expectV => if c == 'v' then some .firstDigit else none
  | .firstDigit => if c.isDigit then some .firstNum else none
  | .firstNum =>
    if c.isDigit then some .firstNum
    else if c == '.' then some .secondDigit else none
  | .secondDigit => if c.isDigit then some .preDashNum else none
  | .preDashNum =>
    if c.isDigit then some .preDashNum
    else if c == '.' then some .preDashDigit
    else if c == '-' then some .dashDigit else none
  | .preDashDigit => if c.isDigit then some .preDashNum else none
  | .dashDigit => if c.isDigit then some .postDashNum else none
  | .postDashNum =>
    if c.isDigit then some .postDashNum
    else if c == '.' then some .postDashDigit else none
  | .postDashDigit => if c.isDigit then some .postDashNum else none

def entRun (s : EntState) : List Char → Bool
  | [] => entAccept s
  | c :: cs =>
    match entStep s c with
    | some s2 => entRun s2 cs
    | none => false

/-- Embeds `ENTERPRISE_TAG_REGEX`: full-anchored match of
`(^v\d+\.\d+(\.\d+)*(-\d+(\.\d+)*)?$)`. -/
def matchEnterpriseTag (s : String) : Bool :=
  entRun .expectV s.toList

def ENTERPRISE_TAG_REGEX_ERROR (tag : String) : String :=
  "openshift_image_tag must be in the format\n" ++
  "v#.#[.#[.#]]. Examples: v1.2, v3.4.1, v3.5.1.3,\n" ++
  "v3.5.1.3.4, v1.2-1, v1.2.3-4, v1.2.3-4.5, v1.2.3-4.5.6\n" ++
  "You specified openshift_image_tag=" ++ tag

def ORIGIN_TAG_REGEX_ERROR (tag : String) : String :=
  "openshift_image_tag must be in the format\n" ++
  "v#.#[.#-optional.#]. Examples: v1.2.3, v3.5.1-alpha.1\n" ++
  "You specified openshift_image_tag=" ++ tag

/-- The two entries of `IMAGE_TAG_REGEX`, keyed by deployment type. -/
inductive TagRegex where
  | origin : TagRegex
  | enterprise : TagRegex

def TagRegex.matches : TagRegex → String → Bool
  | .origin, s => matchOriginTag s
  | .enterprise, s => matchEnterpriseTag s

def TagRegex.error_msg : TagRegex → String → String
  | .origin, tag => ORIGIN_TAG_REGEX_ERROR tag
  | .enterprise, tag => ENTERPRISE_TAG_REGEX_ERROR tag

/-- Embeds `IMAGE_TAG_REGEX[openshift_deployment_type]`: a Python dict lookup
keyed on the two deployment-type strings; any other key raises
`KeyError`. -/
def imageTagRegexLookup (odt : AVal) : Except String TagRegex :=
  if pyEq odt (.vstr "origin") then .ok .origin
  else if pyEq odt (.vstr "openshift-enterprise") then .ok .enterprise
  else .error "KeyError: IMAGE_TAG_REGEX"

/-- Embeds `check_image_tag_format(self, hostvars, host, openshift_deployment_type)`. -/
def check_image_tag_format (hostvars : HostVars) (host : String)
    (openshift_deployment_type : AVal) : Except String Unit := do
  let openshift_image_tag ← template_var hostvars host "openshift_image_tag"
  if !pyTruthy openshift_image_tag ||
      pyEq openshift_image_tag (.vstr "latest") then
    return ()
  let regex ← imageTagRegexLookup openshift_deployment_type
  if regex.matches (pyStr openshift_image_tag) then
    return ()
  else
    throw (regex.error_msg (pyStr openshift_image_tag))

/-- The resolved boolean of one network-plugin toggle: `template_var`,
default substituted for `None`, then `to_bool`. -/
def netPluginBools (hostvars : HostVars) (host : String) :
    Except String (List Bool) :=
  NET_PLUGIN_LIST.mapM (fun pd => do
    let res_temp ← template_var hostvars host pd.1
    let res_temp :=
      match res_temp with
      | .vnone => AVal.vbool pd.2
      | v => v
    pure (to_bool res_temp))

/-- Embeds `str(list(zip([x[0] for x in NET_PLUGIN_LIST], res)))` as Python
formats it: a list of `(name, bool)` tuples. -/
def pluginPairsStr (pairs : List (String × Bool)) : String :=
  "[" ++ String.intercalate ", "
    (pairs.map (fun p =>
      "(" ++ sq ++ p.1 ++ sq ++ ", " ++
        (if p.2 then "True" else "False") ++ ")")) ++ "]"

def net_plugin_msg (host : String) (res : List Bool) : String :=
  "Host Checked: " ++ host ++ " Only one of must be true. Found: " ++
    pluginPairsStr ((NET_PLUGIN_LIST.map Prod.fst).zip res)

/-- Embeds `network_plugin_check(self, hostvars, host)`: `sum(res)` over the
booleans, failing unless the sum is 0 or 1. -/
def network_plugin_check (hostvars : HostVars) (host : String) :
    Except String Unit := do
  let res ← netPluginBools hostvars host
  let total := (res.map (fun b => if b then (1 : Nat) else 0)).sum
  if total == 0 || total == 1 then
    return ()
  else
    throw (net_plugin_msg host res)

def hostname_msg (varname : String) : String :=
  varname ++ " must be 63 characters or less"

/-- One iteration of `check_hostname_vars`: skip falsy values; `len` of a
truthy non-sized value raises `TypeError`. -/
def checkHostnameVar (hostvars : HostVars) (host varname : String) :
    Except String Unit := do
  let var_value ← template_var hostvars host varname
  if pyTruthy var_value then
    let n ← pyLen var_value
    if n > 63 then
      throw (hostname_msg varname)
    else
      return ()
  else
    return ()

/-- Embeds `check_hostname_vars(self, hostvars, host)`. -/
def check_hostname_vars (hostvars : HostVars) (host : String) :
    Except String Unit := do
  checkHostnameVar hostvars host "openshift_public_hostname"
  checkHostnameVar hostvars host "openshift_hostname"

def session_secrets_len_msg : String :=
  "Expects openshift_master_session_auth_secrets and " ++
  "openshift_master_session_encryption_secrets are equal length lists"

def session_auth_secret_msg : String :=
  "Invalid secret in openshift_master_session_auth_secrets. " ++
  "Secrets must be at least 32 characters in length."

def session_enc_secret_msg : String :=
  "Invalid secret in openshift_master_session_encryption_secrets. " ++
  "Secrets must be 16, 24, or 32 characters in length."

/-- The `for secret in sas` loop: `len(secret)` may itself raise. -/
def checkAuthSecrets : List AVal → Except String Unit
  | [] => .ok ()
  | secret :: rest => do
    let n ← pyLen secret
    if n < 32 then
      throw session_auth_secret_msg
    else
      checkAuthSecrets rest

/-- The `for secret in ses` loop. -/
def checkEncSecrets : List AVal → Except String Unit
  | [] => .ok ()
  | secret :: rest => do
    let n ← pyLen secret
    if n == 16 || n == 24 || n == 32 then
      checkEncSecrets rest
    else
      throw session_enc_secret_msg

/-- Embeds `check_session_auth_secrets(self, hostvars, host)`.
`issubclass(type(x), list)` is a type test: only `vlist` passes it. -/
def check_session_auth_secrets (hostvars : HostVars) (host : String) :
    Except String Unit := do
  let sas ← template_var hostvars host "openshift_master_session_auth_secrets"
  let ses ←
    template_var hostvars host "openshift_master_session_encryption_secrets"
  -- `if sas is None and ses is None: return None`
  match sas, ses with
  | .vnone, .vnone => return ()
  | .vlist las, .vlist les =>
    if las.length != les.length then
      throw session_secrets_len_msg
    else do
      checkAuthSecrets las
      checkEncSecrets les
  | _, _ => throw session_secrets_len_msg

def nfs_msg (storage : String) : String :=
  "nfs is an unsupported type for " ++ storage ++ ". " ++
  "openshift_enable_unsupported_configurations=True must" ++
  "be specified to continue with this configuration."

/-- The `for storage in STORAGE_KIND_TUPLE` loop. -/
def storageKindScan (hostvars : HostVars) (host : String) :
    List String → Except String Unit
  | [] => .ok ()
  | storage :: rest => do
    let kind ← template_var hostvars host storage
    if pyEq kind (.vstr "nfs") then
      throw (nfs_msg storage)
    else
      storageKindScan hostvars host rest

/-- Embeds `check_unsupported_nfs_configs(self, hostvars, host)`. -/
def check_unsupported_nfs_configs (hostvars : HostVars) (host : String) :
    Except String Unit := do
  let enable_unsupported ←
    template_var hostvars host "openshift_enable_unsupported_configurations"
  if to_bool enable_unsupported then
    return ()
  else
    storageKindScan hostvars host STORAGE_KIND_TUPLE

def old_keys : List String := ["file", "fileName", "file_name", "filename"]

def htpasswd_msg (old_key : String) : String :=
  "openshift_master_identity_providers contains a " ++
  "provider of kind==HTPasswdPasswordIdentityProvider " ++
  "and " ++ old_key ++ " is set.  Please migrate your htpasswd " ++
  "files to /etc/origin/master/htpasswd and update your " ++
  "existing master configs, and remove the " ++ old_key ++ " key" ++
  "before proceeding."

def isNoneV : AVal → Bool
  | .vnone => true
  | _ => false

/-- The inner `for old_key in old_keys` loop.  The source condition
`old_key in idp is not None` is a Python chained comparison, equal to
`(old_key in idp) and (idp is not None)`; `idp` is the dict `d` here
(membership on a dict tests its keys). -/
def findOldKey (d : List (String × AVal)) : List String → Option String
  | [] => none
  | old_key :: rest =>
    if (lookupKey d old_key).isSome && !isNoneV (.vdict d) then
      some old_key
    else
      findOldKey d rest

/-- The `for idp in idps` loop: `idp[kind]` raises unless `idp` is a dict
holding the key. -/
def htpasswdScan : List AVal → Except String Unit
  | [] => .ok ()
  | idp :: rest => do
    let kind ← pySubscript idp "kind"
    if pyEq kind (.vstr "HTPasswdPasswordIdentityProvider") then
      match idp with
      | .vdict d =>
        match findOldKey d old_keys with
        | some old_key => throw (htpasswd_msg old_key)
        | none => htpasswdScan rest
      | _ => throw "TypeError: argument is not a container"
    else
      htpasswdScan rest

/-- Embeds `check_htpasswd_provider(self, hostvars, host)`.  Iterating a truthy
non-list `idps` either raises at `idp[kind]` (string/dict iteration
yields strings) or raises `TypeError` at the `for` itself. -/
def check_htpasswd_provider (hostvars : HostVars) (host : String) :
    Except String Unit := do
  let idps ←
    template_var hostvars host "openshift_master_identity_providers"
  if !pyTruthy idps then
    -- If no identity_providers are found, nothing for us to do.
    return ()
  let manage_pass ←
    template_var hostvars host "openshift_master_manage_htpasswd"
  if to_bool manage_pass then
    -- If we manage the file, we can just generate in the new path.
    return ()
  match idps with
  | .vlist l => htpasswdScan l
  | .vstr s => htpasswdScan (s.toList.map (fun c => .vstr (String.singleton c)))
  | .vdict d => htpasswdScan (d.map (fun kv => .vstr kv.1))
  | _ => throw "TypeError: object is not iterable"

/-- Embeds `run_checks(self, hostvars, host)`: the fixed ordered rule sequence. -/
def run_checks (hostvars : HostVars) (host : String) :
    Except String Unit := do
  let distro ← template_var hostvars host "ansible_distribution"
  let odt ← check_openshift_deployment_type hostvars host
  check_python_version hostvars host distro
  check_image_tag_format hostvars host odt
  network_plugin_check hostvars host
  check_hostname_vars hostvars host
  check_session_auth_secrets hostvars host
  check_unsupported_nfs_configs hostvars host
  check_htpasswd_provider hostvars host

/-- The result dict set on full success. -/
structure RunResult where
  changed : Bool
  failed : Bool
  msg : String
deriving Repr

/-- The `for host in check_hosts` loop of `run`.  The source wraps any
exception with `last_checked_host`/`last_checked_var` debugging context
before re-raising; the wrapped message still signals failure, which is all
the claims observe, so the inner message is propagated unchanged here. -/
def runHostsLoop (hostvars : HostVars) : List String → Except String Unit
  | [] => .ok ()
  | host :: rest =>
    match run_checks hostvars host with
    | .error e => .error e
    | .ok _ => runHostsLoop hostvars rest

/-- Embeds `run(self, tmp=None, task_vars=None)`.  `check_hosts` is the task
argument (a list of host names); `hostvars` comes from `task_vars`.  An
absent `check_hosts` argument and an empty list are both falsy and are
modelled by the empty list; likewise a falsy `hostvars` by the empty
map (the source raises with the falsy object itself as the message). -/
def run (check_hosts : List String) (hostvars : HostVars) :
    Except String RunResult := do
  if check_hosts.isEmpty then
    throw "check_hosts is required"
  if hostvars.isEmpty then
    throw "hostvars missing"
  runHostsLoop hostvars check_hosts
  return { changed := false, failed := false, msg := "Sanity Checks passed" }

/-- The resolved value of a variable in the variable bag of one host:
missing variables resolve to `None`, like `hostvars[host].get(name)`. -/
def resolveVar (vars : Vars) (name : String) : AVal :=
  (lookupKey vars name).getD .vnone

/-- An auth secret is acceptable when `len` applies and gives ≥ 32. -/
def secretLenOk32 (v : AVal) : Bool :=
  match pyLen v with
  | .ok n => decide (32 ≤ n)
  | .error _ => false

/-- An encryption secret is acceptable when `len` applies and gives one
of 16, 24, 32. -/
def encLenOk (v : AVal) : Bool :=
  match pyLen v with
  | .ok n => n == 16 || n == 24 || n == 32
  | .error _ => false

/-- A provider record of kind HTPasswdPasswordIdentityProvider. -/
def idpIsHtpasswd (idp : AVal) : Bool :=
  match idp with
  | .vdict d =>
    match lookupKey d "kind" with
    | some k => pyEq k (.vstr "HTPasswdPasswordIdentityProvider")
    | none => false
  | _ => false

/-- A provider record holding one of the four legacy htpasswd keys. -/
def idpHasOldKey (idp : AVal) : Bool :=
  match idp with
  | .vdict d => old_keys.any (fun k => (lookupKey d k).isSome)
  | _ => false

/-- A provider record the scan can process without raising: a dict with
a `kind` key. -/
def idpWellFormed (idp : AVal) : Bool :=
  match idp with
  | .vdict d => (lookupKey d "kind").isSome
  | _ => false

/-! ### Concrete inputs used by the witness theorems -/

def hvC2valid : HostVars :=
  [("h", [("openshift_deployment_type", .vstr "origin")])]

def hvC2invalid : HostVars :=
  [("h", [("openshift_deployment_type", .vstr "atomic-enterprise")])]

def hvC4fedora : HostVars :=
  [("h", [("ansible_python",
           .vdict [("version", .vdict [("major", .vint 2)])])])]

def hvTag35 : HostVars := [("h", [("openshift_image_tag", .vstr "3.5")])]

def hvC6bad : HostVars := [("h", [("openshift_use_flannel", .vstr "true")])]

def hvC6good : HostVars := [("h", [])]

def hvC7good : HostVars :=
  [("h",
    [("openshift_master_session_auth_secrets",
      .vlist [.vstr "aaaaaaaaaaaaaaaaaaaaaaaaaaaaaaaa",
              .vstr "bbbbbbbbbbbbbbbbbbbbbbbbbbbbbbbb"]),
     ("openshift_master_session_encryption_secrets",
      .vlist [.vstr "cccccccccccccccc",
              .vstr "dddddddddddddddddddddddd"])])]

def hvC7uneq : HostVars :=
  [("h",
    [("openshift_master_session_auth_secrets",
      .vlist [.vstr "aaaaaaaaaaaaaaaaaaaaaaaaaaaaaaaa",
              .vstr "bbbbbbbbbbbbbbbbbbbbbbbbbbbbbbbb"]),
     ("openshift_master_session_encryption_secrets",
      .vlist [.vstr "cccccccccccccccc"])])]

def varsC8on : Vars :=
  [("openshift_enable_unsupported_configurations", .vstr "True"),
   ("openshift_logging_storage_kind", .vstr "nfs")]

def hvC8on : HostVars := [("h", varsC8on)]

def varsC8nfs : Vars := [("openshift_logging_storage_kind", .vstr "nfs")]

def hvC8nfs : HostVars := [("h", varsC8nfs)]

def idpC5 : AVal :=
  .vdict [("kind", .vstr "HTPasswdPasswordIdentityProvider"),
          ("filename", .vstr "/etc/origin/htpasswd")]

def hvC5 : HostVars :=
  [("h", [("openshift_master_identity_providers", .vlist [idpC5])])]

def hvC1good : HostVars :=
  [("host1",
    [("ansible_distribution", .vstr "CentOS"),
     ("ansible_python", .vdict [("version", .vdict [("major", .vint 2)])]),
     ("openshift_deployment_type", .vstr "origin"),
     ("openshift_image_tag", .vstr "latest")])]

/-! ## Helper lemmas -/

theorem pyEq_vstr_iff (v : AVal) (s : String) :
    pyEq v (.vstr s) = true ↔ v = .vstr s := by
  cases v <;> simp [pyEq]

theorem except_pure_eq {ε α : Type} (a : α) :
    (pure a : Except ε α) = Except.ok a := rfl

theorem except_throw_eq {ε α : Type} (e : ε) :
    (throw e : Except ε α) = Except.error e := rfl

theorem template_var_of_lookup {hostvars : HostVars} {host : String}
    {vars : Vars} (hlk : lookupHost hostvars host = some vars)
    (varname : String) :
    template_var hostvars host varname =
      .ok ((lookupKey vars varname).getD .vnone) := by
  simp [template_var, hlk]

theorem template_var_ok_lookup {hostvars : HostVars} {host varname : String}
    {v : AVal} (h : template_var hostvars host varname = .ok v) :
    ∃ vars, lookupHost hostvars host = some vars := by
  unfold template_var at h
  cases hlk : lookupHost hostvars host with
  | none => rw [hlk] at h; exact absurd h (by simp)
  | some vars => exact ⟨vars, rfl⟩

theorem lookupHost_ne_nil {hostvars : HostVars} {host : String} {vars : Vars}
    (h : lookupHost hostvars host = some vars) : hostvars ≠ [] := by
  intro hn
  subst hn
  simp [lookupHost] at h

/-! ## C9: to_bool -/

/-- C9: for every modelled value, `to_bool` returns true if and only if
the value is exactly one of the fixed enumerated truthy representations
(boolean true, integer 1, and the strings "True", "1", "true", "TRUE",
"Yes", "yes", "Y", "y", "YES", "on", "ON", "On"); every other value
returns false. -/
theorem to_bool_truthy_enumeration (v : AVal) :
    to_bool v = true ↔
      v ∈ ([.vbool true, .vint 1, .vstr "True", .vstr "1", .vstr "true",
            .vstr "TRUE", .vstr "Yes", .vstr "yes", .vstr "Y", .vstr "y",
            .vstr "YES", .vstr "on", .vstr "ON", .vstr "On"] :
           List AVal) := by
  cases v with
  | vbool b => cases b <;> simp [to_bool, yes_list, pyEq]
  | _ => simp [to_bool, yes_list, pyEq]

/-! ## C2: check_openshift_deployment_type -/

/-- C2: with `openshift_deployment_type` resolving to `v`, the check
passes and returns `v` when `v` is one of the two valid strings, and
fails with the message listing the valid choices otherwise (absent
resolves to `None`, which is likewise invalid). -/
theorem check_openshift_deployment_type_spec (hostvars : HostVars)
    (host : String) (v : AVal)
    (hres : template_var hostvars host "openshift_deployment_type" = .ok v) :
    ((v = .vstr "origin" ∨ v = .vstr "openshift-enterprise") →
      check_openshift_deployment_type hostvars host = .ok v)
  ∧ (v ≠ .vstr "origin" → v ≠ .vstr "openshift-enterprise" →
      check_openshift_deployment_type hostvars host =
        .error deployment_type_error_msg)
  ∧ deployment_type_error_msg =
      "openshift_deployment_type must be defined and one of " ++
        "origin, openshift-enterprise" := by
  refine ⟨?_, ?_, rfl⟩ <;>
    simp only [check_openshift_deployment_type, hres, VALID_DEPLOYMENT_TYPES,
      bind, Except.bind, List.any_cons, List.any_nil, Bool.or_false]
  · rintro (h | h) <;> subst h <;> simp [pyEq] <;> rfl
  · intro h1 h2
    have e1 : pyEq v (.vstr "origin") = false := by
      rw [← Bool.not_eq_true, pyEq_vstr_iff]; exact h1
    have e2 : pyEq v (.vstr "openshift-enterprise") = false := by
      rw [← Bool.not_eq_true, pyEq_vstr_iff]; exact h2
    simp [e1, e2]
    rfl

/-- Witness for C2 at concrete inputs: "origin" passes and is returned;
"atomic-enterprise" fails with the choice-listing message. -/
theorem check_openshift_deployment_type_witness :
    check_openshift_deployment_type hvC2valid "h" = .ok (.vstr "origin") ∧
    check_openshift_deployment_type hvC2invalid "h" =
      .error deployment_type_error_msg :=
  ⟨(check_openshift_deployment_type_spec hvC2valid "h" (.vstr "origin")
      rfl).1 (Or.inl rfl),
   (check_openshift_deployment_type_spec hvC2invalid "h"
      (.vstr "atomic-enterprise") rfl).2.1 (by simp) (by simp)⟩

/-! ## C4: check_python_version -/

/-- C4: with `ansible_python` resolving to a record whose
`version.major` is the integer `m`, `check_python_version` raises if and
only if the distro equals "Fedora" and `m` is not 3; for every other
distro it never raises, whatever `m` (that branch builds a message but
never raises it). -/
theorem check_python_version_spec (hostvars : HostVars) (host : String)
    (distro ap ver : AVal) (m : Int)
    (h1 : template_var hostvars host "ansible_python" = .ok ap)
    (h2 : pySubscript ap "version" = .ok ver)
    (h3 : pySubscript ver "major" = .ok (.vint m)) :
    check_python_version hostvars host distro ≠ .ok () ↔
      distro = .vstr "Fedora" ∧ m ≠ 3 := by
  simp only [check_python_version, h1, h2, h3, bind, Except.bind,
    except_pure_eq, except_throw_eq]
  cases e : pyEq distro (.vstr "Fedora") with
  | true =>
    have hd : distro = .vstr "Fedora" := (pyEq_vstr_iff _ _).mp e
    cases em : pyEq (.vint m) (.vint 3) with
    | true =>
      have hm : m = 3 := by simpa [pyEq] using em
      simp [e, hd, hm]
    | false =>
      have hm : m ≠ 3 := by simpa [pyEq] using em
      simp [e, em, hd, hm]
  | false =>
    have hd : distro ≠ .vstr "Fedora" := fun h => by
      rw [(pyEq_vstr_iff distro "Fedora").mpr h] at e
      exact absurd e (by simp)
    simp [e, hd, ite_self]

/-- Witness for C4: Fedora with Python major 2 raises; a non-Fedora
distro with major 3 (which is not the "required" 2) does not raise. -/
theorem check_python_version_witness :
    (check_python_version hvC4fedora "h" (.vstr "Fedora") ≠ .ok ()) ∧
    ¬ (check_python_version
        [("h", [("ansible_python",
                 .vdict [("version", .vdict [("major", .vint 3)])])])]
        "h" (.vstr "CentOS") ≠ .ok ()) :=
  ⟨(check_python_version_spec hvC4fedora "h" (.vstr "Fedora")
      (.vdict [("version", .vdict [("major", .vint 2)])])
      (.vdict [("major", .vint 2)]) 2 rfl rfl rfl).mpr
        ⟨rfl, by decide⟩,
   fun hne =>
     by
       have h := (check_python_version_spec
         [("h", [("ansible_python",
                  .vdict [("version", .vdict [("major", .vint 3)])])])]
         "h" (.vstr "CentOS")
         (.vdict [("version", .vdict [("major", .vint 3)])])
         (.vdict [("major", .vint 3)]) 3 rfl rfl rfl).mp hne
       exact absurd h.1 (by simp)⟩

/-! ## C10: check_image_tag_format on falsy tags -/

/-- C10: whenever `openshift_image_tag` resolves to a falsy value
(absent/None, the empty string, False, 0), `check_image_tag_format`
passes, and it does so for an arbitrary deployment-type argument — even
one outside the keys of the regex table — showing the table is never
consulted. -/
theorem check_image_tag_format_falsy (hostvars : HostVars) (host : String)
    (odt tag : AVal)
    (h1 : template_var hostvars host "openshift_image_tag" = .ok tag)
    (h2 : pyTruthy tag = false) :
    check_image_tag_format hostvars host odt = .ok () := by
  simp only [check_image_tag_format, h1, h2, bind, Except.bind,
    Bool.not_false, Bool.true_or, if_true]
  rfl

/-- Witness for C10: an absent tag, the empty string, False and 0 all
pass, with a deployment type that is not a key of the regex table. -/
theorem check_image_tag_format_falsy_witness :
    check_image_tag_format [("h", [])] "h" (.vstr "bogus") = .ok () ∧
    check_image_tag_format [("h", [("openshift_image_tag", .vstr "")])]
      "h" (.vstr "bogus") = .ok () ∧
    check_image_tag_format [("h", [("openshift_image_tag", .vbool false)])]
      "h" (.vstr "bogus") = .ok () ∧
    check_image_tag_format [("h", [("openshift_image_tag", .vint 0)])]
      "h" (.vstr "bogus") = .ok () :=
  ⟨check_image_tag_format_falsy [("h", [])] "h" (.vstr "bogus") .vnone
      rfl rfl,
   check_image_tag_format_falsy _ "h" (.vstr "bogus") (.vstr "") rfl rfl,
   check_image_tag_format_falsy _ "h" (.vstr "bogus") (.vbool false) rfl rfl,
   check_image_tag_format_falsy _ "h" (.vstr "bogus") (.vint 0) rfl rfl⟩

/-! ## C3: check_image_tag_format on "3.5" and enterprise tags -/

/-- C3 counterexample: the claim says the tag "3.5" fails under both
deployment types, but under "origin" the check passes, because the
origin pattern `^v?\d+\.\d+.*` makes the leading `v` optional. -/
theorem image_tag_35_passes_under_origin :
    check_image_tag_format hvTag35 "h" (.vstr "origin") = .ok () := rfl

/-- C3 (amended): the tag "3.5" fails under "openshift-enterprise" but
passes under "origin" (whose pattern makes the leading `v` optional);
under "openshift-enterprise" every tag matching the enterprise pattern,
such as "v3.5.1-4.5", passes. -/
theorem check_image_tag_format_amended :
    (∀ (hostvars : HostVars) (host s : String),
      template_var hostvars host "openshift_image_tag" = .ok (.vstr s) →
      matchEnterpriseTag s = true →
      check_image_tag_format hostvars host (.vstr "openshift-enterprise") =
        .ok ())
  ∧ check_image_tag_format hvTag35 "h" (.vstr "openshift-enterprise") =
      .error (ENTERPRISE_TAG_REGEX_ERROR "3.5")
  ∧ check_image_tag_format hvTag35 "h" (.vstr "origin") = .ok () := by
  refine ⟨?_, rfl, rfl⟩
  intro hostvars host s h1 hm
  simp only [check_image_tag_format, h1, bind, Except.bind]
  by_cases he : (!pyTruthy (.vstr s) || pyEq (.vstr s) (.vstr "latest")) = true
  · simp [he]
    rfl
  · simp only [he, Bool.false_eq_true, if_false]
    have : imageTagRegexLookup (.vstr "openshift-enterprise") =
        .ok .enterprise := rfl
    simp only [this, Except.bind]
    simp [TagRegex.matches, pyStr, hm]
    rfl

/-- Witness for C3 (amended part 1) at the enterprise tag "v3.5.1-4.5". -/
theorem check_image_tag_format_amended_witness :
    check_image_tag_format
      [("h", [("openshift_image_tag", .vstr "v3.5.1-4.5")])] "h"
      (.vstr "openshift-enterprise") = .ok () :=
  check_image_tag_format_amended.1 _ "h" "v3.5.1-4.5" rfl rfl

/-! ## C6: network_plugin_check -/

theorem boolSum_eq_count (l : List Bool) :
    (l.map (fun b => if b then (1 : Nat) else 0)).sum = l.count true := by
  induction l with
  | nil => simp
  | cons b l ih =>
    cases b with
    | false => simp [List.count_cons, ih]
    | true =>
      simp [List.count_cons, ih]
      omega

/-- C6: with the six toggles resolving (after defaults and boolean
coercion) to the list `res`, the check passes when at most one is true
and fails when two or more are true, with the failure message naming the
host and listing the (variable, resolved-boolean) pairs in declaration
order (`net_plugin_msg` zips the names of `NET_PLUGIN_LIST` with `res`
in order). -/
theorem network_plugin_check_spec (hostvars : HostVars) (host : String)
    (res : List Bool)
    (hres : netPluginBools hostvars host = .ok res) :
    (res.count true ≤ 1 → network_plugin_check hostvars host = .ok ())
  ∧ (2 ≤ res.count true →
      network_plugin_check hostvars host =
        .error (net_plugin_msg host res)) := by
  constructor <;> intro hc <;>
    simp only [network_plugin_check, hres, bind, Except.bind,
      boolSum_eq_count, except_pure_eq, except_throw_eq]
  · have h01 : res.count true = 0 ∨ res.count true = 1 := by omega
    rcases h01 with h | h <;> simp [h]
  · have h0 : (res.count true == 0) = false := by
      simp only [beq_eq_false_iff_ne, ne_eq]
      omega
    have h1 : (res.count true == 1) = false := by
      simp only [beq_eq_false_iff_ne, ne_eq]
      omega
    simp [h0, h1]

/-- Witness for C6: with only `openshift_use_flannel` set (truthy), the
default-true sdn plugin makes two resolved-true toggles and the check
fails with the six-pair message; with nothing set, only the default-true
sdn toggle is true and the check passes. -/
theorem network_plugin_check_witness :
    network_plugin_check hvC6bad "h" =
      .error (net_plugin_msg "h" [true, true, false, false, false, false]) ∧
    network_plugin_check hvC6good "h" = .ok () :=
  ⟨(network_plugin_check_spec hvC6bad "h"
      [true, true, false, false, false, false] rfl).2 (by decide),
   (network_plugin_check_spec hvC6good "h"
      [true, false, false, false, false, false] rfl).1 (by decide)⟩

/-! ## C7: check_session_auth_secrets -/

theorem except_seq_ok_iff (x y : Except String Unit) :
    (x >>= fun _ => y) = .ok () ↔ x = .ok () ∧ y = .ok () := by
  cases x with
  | error e => simp [bind, Except.bind]
  | ok u => cases u; simp [bind, Except.bind]

theorem checkAuthSecrets_ok_iff (l : List AVal) :
    checkAuthSecrets l = .ok () ↔ l.all secretLenOk32 = true := by
  induction l with
  | nil => simp [checkAuthSecrets]
  | cons s l ih =>
    simp only [checkAuthSecrets, bind, Except.bind, List.all_cons,
      Bool.and_eq_true]
    cases hl : pyLen s with
    | error e => simp [secretLenOk32, hl]
    | ok n =>
      by_cases hn : n < 32
      · have hs : secretLenOk32 s = false := by
          simp only [secretLenOk32, hl, decide_eq_false_iff_not]
          omega
        simp [hn, hs, except_throw_eq]
      · have hs : secretLenOk32 s = true := by
          simp only [secretLenOk32, hl, decide_eq_true_eq]
          omega
        simp [hn, hs, ih]

theorem checkEncSecrets_ok_iff (l : List AVal) :
    checkEncSecrets l = .ok () ↔ l.all encLenOk = true := by
  induction l with
  | nil => simp [checkEncSecrets]
  | cons s l ih =>
    simp only [checkEncSecrets, bind, Except.bind, List.all_cons,
      Bool.and_eq_true]
    cases hl : pyLen s with
    | error e => simp [encLenOk, hl]
    | ok n =>
      cases hgood : (n == 16 || n == 24 || n == 32) with
      | true => simp [hgood, encLenOk, hl, ih]
      | false => simp [hgood, encLenOk, hl, except_throw_eq]

theorem checkAuthSecrets_bad (l : List AVal)
    (hstr : ∀ s ∈ l, ∃ t, s = .vstr t)
    (hbad : l.all secretLenOk32 = false) :
    checkAuthSecrets l = .error session_auth_secret_msg := by
  induction l with
  | nil => simp at hbad
  | cons s l ih =>
    obtain ⟨t, ht⟩ := hstr s (List.mem_cons_self s l)
    subst ht
    simp only [checkAuthSecrets, pyLen, bind, Except.bind]
    by_cases hn : t.length < 32
    · simp [hn, except_throw_eq]
    · have hs : secretLenOk32 (.vstr t) = true := by
        simp only [secretLenOk32, pyLen, decide_eq_true_eq]
        omega
      simp only [List.all_cons, hs, Bool.true_and] at hbad
      simp [hn, ih (fun x hx => hstr x (List.mem_cons_of_mem _ hx)) hbad]

theorem checkEncSecrets_bad (l : List AVal)
    (hstr : ∀ s ∈ l, ∃ t, s = .vstr t)
    (hbad : l.all encLenOk = false) :
    checkEncSecrets l = .error session_enc_secret_msg := by
  induction l with
  | nil => simp at hbad
  | cons s l ih =>
    obtain ⟨t, ht⟩ := hstr s (List.mem_cons_self s l)
    subst ht
    simp only [checkEncSecrets, pyLen, bind, Except.bind]
    cases hgood : (t.length == 16 || t.length == 24 || t.length == 32) with
    | false => simp [hgood, except_throw_eq]
    | true =>
      have hs : encLenOk (.vstr t) = true := by
        simp only [encLenOk, pyLen]
        exact hgood
      simp only [List.all_cons, hs, Bool.true_and] at hbad
      simp [hgood, ih (fun x hx => hstr x (List.mem_cons_of_mem _ hx)) hbad]

/-- C7: with the two secret variables resolving to `sas` and `ses`, the
check passes iff both are absent, or both are lists of equal length with
every auth secret of length ≥ 32 and every encryption secret of length
16, 24 or 32.  Equal-length lists with valid individual lengths pass;
lists of unequal length fail with the equal-length message regardless of
individual validity; and an invalid secret fails with the message naming
its list (auth first). -/
theorem check_session_auth_secrets_spec (hostvars : HostVars)
    (host : String) (sas ses : AVal)
    (h1 : template_var hostvars host
      "openshift_master_session_auth_secrets" = .ok sas)
    (h2 : template_var hostvars host
      "openshift_master_session_encryption_secrets" = .ok ses) :
    (check_session_auth_secrets hostvars host = .ok () ↔
       (sas = .vnone ∧ ses = .vnone) ∨
       (∃ las les, sas = .vlist las ∧ ses = .vlist les ∧
          las.length = les.length ∧ las.all secretLenOk32 = true ∧
          les.all encLenOk = true))
  ∧ (∀ las les, sas = .vlist las → ses = .vlist les →
       las.length ≠ les.length →
       check_session_auth_secrets hostvars host =
         .error session_secrets_len_msg)
  ∧ (∀ las les, sas = .vlist las → ses = .vlist les →
       las.length = les.length → (∀ s ∈ las, ∃ t, s = .vstr t) →
       las.all secretLenOk32 = false →
       check_session_auth_secrets hostvars host =
         .error session_auth_secret_msg)
  ∧ (∀ las les, sas = .vlist las → ses = .vlist les →
       las.length = les.length → las.all secretLenOk32 = true →
       (∀ s ∈ les, ∃ t, s = .vstr t) → les.all encLenOk = false →
       check_session_auth_secrets hostvars host =
         .error session_enc_secret_msg) := by
  refine ⟨?_, ?_, ?_, ?_⟩
  · simp only [check_session_auth_secrets, h1, h2, bind, Except.bind]
    cases sas <;> cases ses <;>
      try (simp [except_throw_eq, except_pure_eq]; done)
    rename_i las les
    by_cases hlen : las.length = les.length
    · have hbne : (las.length != les.length) = false := by
        simp [bne, hlen]
      simp only [hbne, Bool.false_eq_true, if_false]
      cases hca : checkAuthSecrets las with
      | error e =>
        have hna : las.all secretLenOk32 ≠ true := fun hal => by
          rw [(checkAuthSecrets_ok_iff las).mpr hal] at hca
          exact Except.noConfusion hca
        constructor
        · intro h
          exact Except.noConfusion h
        · rintro (⟨h, -⟩ | ⟨las2, les2, hl2, hl3, -, hall, -⟩)
          · exact AVal.noConfusion h
          · injection hl2 with he2
            subst he2
            exact absurd hall hna
      | ok u =>
        cases u
        have hya : las.all secretLenOk32 = true :=
          (checkAuthSecrets_ok_iff las).mp hca
        rw [checkEncSecrets_ok_iff]
        constructor
        · intro he
          exact Or.inr ⟨las, les, rfl, rfl, hlen, hya, he⟩
        · rintro (⟨h, -⟩ | ⟨las2, les2, hl2, hl3, -, -, henc⟩)
          · exact AVal.noConfusion h
          · injection hl3 with he3
            subst he3
            exact henc
    · have hbne : (las.length != les.length) = true := by
        simpa [bne] using hlen
      simp only [hbne, if_true]
      simp [except_throw_eq, hlen]
  · intro las les hs1 hs2 hlen
    subst hs1; subst hs2
    have hbne : (las.length != les.length) = true := by
      simpa [bne] using hlen
    simp [check_session_auth_secrets, h1, h2, bind, Except.bind, hbne,
      except_throw_eq]
  · intro las les hs1 hs2 hlen hstr hbad
    subst hs1; subst hs2
    have hbne : (las.length != les.length) = false := by
      simp [bne, hlen]
    simp only [check_session_auth_secrets, h1, h2, bind, Except.bind,
      hbne, Bool.false_eq_true, if_false]
    rw [checkAuthSecrets_bad las hstr hbad]
  · intro las les hs1 hs2 hlen hgood hstr hbad
    subst hs1; subst hs2
    have hbne : (las.length != les.length) = false := by
      simp [bne, hlen]
    simp only [check_session_auth_secrets, h1, h2, bind, Except.bind,
      hbne, Bool.false_eq_true, if_false]
    rw [(checkAuthSecrets_ok_iff las).mpr hgood]
    exact checkEncSecrets_bad les hstr hbad

/-- Witness for C7: equal-length lists with valid individual lengths
pass; the same auth list against a shorter (individually valid)
encryption list fails with the equal-length message. -/
theorem check_session_auth_secrets_witness :
    check_session_auth_secrets hvC7good "h" = .ok () ∧
    check_session_auth_secrets hvC7uneq "h" =
      .error session_secrets_len_msg :=
  ⟨(check_session_auth_secrets_spec hvC7good "h"
      (.vlist [.vstr "aaaaaaaaaaaaaaaaaaaaaaaaaaaaaaaa",
               .vstr "bbbbbbbbbbbbbbbbbbbbbbbbbbbbbbbb"])
      (.vlist [.vstr "cccccccccccccccc",
               .vstr "dddddddddddddddddddddddd"]) rfl rfl).1.mpr
      (Or.inr ⟨_, _, rfl, rfl, rfl, rfl, rfl⟩),
   (check_session_auth_secrets_spec hvC7uneq "h"
      (.vlist [.vstr "aaaaaaaaaaaaaaaaaaaaaaaaaaaaaaaa",
               .vstr "bbbbbbbbbbbbbbbbbbbbbbbbbbbbbbbb"])
      (.vlist [.vstr "cccccccccccccccc"]) rfl rfl).2.1 _ _ rfl rfl
      (by decide)⟩

/-! ## C8: check_unsupported_nfs_configs -/

theorem storageKindScan_ok_iff (hostvars : HostVars) (host : String)
    (vars : Vars) (hlk : lookupHost hostvars host = some vars)
    (l : List String) :
    storageKindScan hostvars host l = .ok () ↔
      l.all (fun v => !pyEq (resolveVar vars v) (.vstr "nfs")) = true := by
  induction l with
  | nil => simp [storageKindScan]
  | cons v l ih =>
    simp only [storageKindScan, template_var_of_lookup hlk, bind,
      Except.bind, List.all_cons, Bool.and_eq_true]
    cases hp : pyEq ((lookupKey vars v).getD .vnone) (.vstr "nfs") with
    | true => simp [hp, resolveVar, except_throw_eq]
    | false => simp [hp, resolveVar, ih]

theorem storageKindScan_error (hostvars : HostVars) (host : String)
    (vars : Vars) (hlk : lookupHost hostvars host = some vars)
    (l : List String) (m : String)
    (h : storageKindScan hostvars host l = .error m) :
    ∃ v ∈ l, pyEq (resolveVar vars v) (.vstr "nfs") = true ∧ m = nfs_msg v := by
  induction l with
  | nil => simp [storageKindScan] at h
  | cons v l ih =>
    simp only [storageKindScan, template_var_of_lookup hlk, bind,
      Except.bind] at h
    cases hp : pyEq ((lookupKey vars v).getD .vnone) (.vstr "nfs") with
    | true =>
      rw [hp] at h
      simp only [if_true, except_throw_eq, Except.error.injEq] at h
      exact ⟨v, List.mem_cons_self v l, by simpa [resolveVar] using hp,
        h.symm⟩
    | false =>
      rw [hp] at h
      simp only [Bool.false_eq_true, if_false] at h
      obtain ⟨w, hw, hpw, hm⟩ := ih h
      exact ⟨w, List.mem_cons_of_mem v hw, hpw, hm⟩

/-- C8: with the variable bag `vars` of the host, the check passes
unconditionally when the override flag boolean-coerces to true; when it
coerces to false, the check passes iff none of the seven storage-kind
variables resolves to the string "nfs", and any failure message is the
`nfs_msg` naming one of the seven variables whose resolved value is
"nfs". -/
theorem check_unsupported_nfs_configs_spec (hostvars : HostVars)
    (host : String) (vars : Vars)
    (hlk : lookupHost hostvars host = some vars) :
    (to_bool (resolveVar vars
        "openshift_enable_unsupported_configurations") = true →
      check_unsupported_nfs_configs hostvars host = .ok ())
  ∧ (to_bool (resolveVar vars
        "openshift_enable_unsupported_configurations") = false →
      ((check_unsupported_nfs_configs hostvars host = .ok ()) ↔
         STORAGE_KIND_TUPLE.all
           (fun v => !pyEq (resolveVar vars v) (.vstr "nfs")) = true)
      ∧ (∀ m, check_unsupported_nfs_configs hostvars host = .error m →
          ∃ v ∈ STORAGE_KIND_TUPLE,
            pyEq (resolveVar vars v) (.vstr "nfs") = true ∧
              m = nfs_msg v)) := by
  have hres : template_var hostvars host
      "openshift_enable_unsupported_configurations" =
        .ok (resolveVar vars
          "openshift_enable_unsupported_configurations") :=
    template_var_of_lookup hlk _
  constructor
  · intro ht
    simp only [check_unsupported_nfs_configs, hres, bind, Except.bind, ht,
      if_true]
    rfl
  · intro hf
    constructor
    · simp only [check_unsupported_nfs_configs, hres, bind, Except.bind,
        hf, Bool.false_eq_true, if_false]
      exact storageKindScan_ok_iff hostvars host vars hlk STORAGE_KIND_TUPLE
    · intro m hm
      simp only [check_unsupported_nfs_configs, hres, bind, Except.bind,
        hf, Bool.false_eq_true, if_false] at hm
      exact storageKindScan_error hostvars host vars hlk
        STORAGE_KIND_TUPLE m hm

/-- Witness for C8: an "nfs" logging storage kind passes with the
override flag set to "True", while without the flag the pass-iff
characterization applies to the same storage configuration (whose
all-clear condition is false, since `openshift_logging_storage_kind`
is "nfs"). -/
theorem check_unsupported_nfs_configs_witness :
    check_unsupported_nfs_configs hvC8on "h" = .ok () ∧
    ((check_unsupported_nfs_configs hvC8nfs "h" = .ok ()) ↔
      STORAGE_KIND_TUPLE.all
        (fun v => !pyEq (resolveVar varsC8nfs v) (.vstr "nfs")) = true) :=
  ⟨(check_unsupported_nfs_configs_spec hvC8on "h" varsC8on rfl).1 rfl,
   ((check_unsupported_nfs_configs_spec hvC8nfs "h" varsC8nfs rfl).2
      rfl).1⟩

/-! ## C5: check_htpasswd_provider -/

theorem findOldKey_none_iff (d : List (String × AVal)) (ks : List String) :
    findOldKey d ks = none ↔
      ks.all (fun k => !(lookupKey d k).isSome) = true := by
  induction ks with
  | nil => simp [findOldKey]
  | cons k ks ih =>
    simp only [findOldKey, isNoneV, Bool.not_false, Bool.and_true,
      List.all_cons, Bool.and_eq_true]
    cases hk : (lookupKey d k).isSome with
    | true => simp [hk]
    | false => simp [hk, ih]

theorem findOldKey_some (d : List (String × AVal)) (ks : List String)
    (k : String) (h : findOldKey d ks = some k) :
    k ∈ ks ∧ (lookupKey d k).isSome = true := by
  induction ks with
  | nil => simp [findOldKey] at h
  | cons k0 ks ih =>
    simp only [findOldKey, isNoneV, Bool.not_false, Bool.and_true] at h
    cases hk : (lookupKey d k0).isSome with
    | true =>
      rw [hk] at h
      simp only [if_true, Option.some.injEq] at h
      subst h
      exact ⟨List.mem_cons_self k0 ks, hk⟩
    | false =>
      rw [hk] at h
      simp only [Bool.false_eq_true, if_false] at h
      obtain ⟨hmem, hsome⟩ := ih h
      exact ⟨List.mem_cons_of_mem k0 hmem, hsome⟩

theorem htpasswdScan_ok_iff (l : List AVal)
    (hwf : ∀ idp ∈ l, idpWellFormed idp = true) :
    htpasswdScan l = .ok () ↔
      l.all (fun idp => !(idpIsHtpasswd idp && idpHasOldKey idp)) = true := by
  induction l with
  | nil => simp [htpasswdScan]
  | cons idp rest ih =>
    have hw := hwf idp (List.mem_cons_self idp rest)
    have ihr := ih (fun x hx => hwf x (List.mem_cons_of_mem idp hx))
    cases idp with
    | vdict d =>
      simp only [idpWellFormed] at hw
      obtain ⟨k, hk⟩ := Option.isSome_iff_exists.mp hw
      simp only [htpasswdScan, pySubscript, hk, bind, Except.bind,
        List.all_cons, Bool.and_eq_true, idpIsHtpasswd, idpHasOldKey]
      cases hp : pyEq k (.vstr "HTPasswdPasswordIdentityProvider") with
      | false => simp [hp, hk, ihr, idpIsHtpasswd, idpHasOldKey]
      | true =>
        cases hfk : findOldKey d old_keys with
        | some kk =>
          have hmem := findOldKey_some d old_keys kk hfk
          have hany : old_keys.any (fun k0 => (lookupKey d k0).isSome) =
              true :=
            List.any_eq_true.mpr ⟨kk, hmem.1, hmem.2⟩
          simp [hp, hk, hfk, hany, except_throw_eq]
        | none =>
          have hnone : old_keys.all (fun k0 => !(lookupKey d k0).isSome) =
              true := (findOldKey_none_iff d old_keys).mp hfk
          have hany : old_keys.any (fun k0 => (lookupKey d k0).isSome) =
              false := by
            cases ha : old_keys.any (fun k0 => (lookupKey d k0).isSome) with
            | false => rfl
            | true =>
              obtain ⟨k0, hk0, hs⟩ := List.any_eq_true.mp ha
              have := (List.all_eq_true.mp hnone) k0 hk0
              simp [hs] at this
          simp [hp, hk, hfk, hany, ihr, idpIsHtpasswd, idpHasOldKey]
    | _ => simp [idpWellFormed] at hw

theorem htpasswdScan_error (l : List AVal)
    (hwf : ∀ idp ∈ l, idpWellFormed idp = true) (m : String)
    (h : htpasswdScan l = .error m) :
    ∃ k ∈ old_keys, m = htpasswd_msg k := by
  induction l with
  | nil => simp [htpasswdScan] at h
  | cons idp rest ih =>
    have hw := hwf idp (List.mem_cons_self idp rest)
    have ihr := ih (fun x hx => hwf x (List.mem_cons_of_mem idp hx))
    cases idp with
    | vdict d =>
      simp only [idpWellFormed] at hw
      obtain ⟨k, hk⟩ := Option.isSome_iff_exists.mp hw
      simp only [htpasswdScan, pySubscript, hk, bind, Except.bind] at h
      cases hp : pyEq k (.vstr "HTPasswdPasswordIdentityProvider") with
      | false =>
        rw [hp] at h
        simp only [Bool.false_eq_true, if_false] at h
        exact ihr h
      | true =>
        rw [hp] at h
        simp only [if_true] at h
        cases hfk : findOldKey d old_keys with
        | some kk =>
          rw [hfk] at h
          simp only [except_throw_eq, Except.error.injEq] at h
          exact ⟨kk, (findOldKey_some d old_keys kk hfk).1, h.symm⟩
        | none =>
          rw [hfk] at h
          exact ihr h
    | _ => simp [idpWellFormed] at hw

/-- C5: with the identity-provider variable resolving to the list `l`
(each entry a record with a `kind` key) and the manage-htpasswd variable
resolving to `mp`, the check fails iff `l` is non-empty, `mp`
boolean-coerces to false, and some provider of kind
HTPasswdPasswordIdentityProvider actually contains one of the four
legacy key names; any failure message is `htpasswd_msg` naming one of
those four keys. -/
theorem check_htpasswd_provider_spec (hostvars : HostVars) (host : String)
    (l : List AVal) (mp : AVal)
    (h1 : template_var hostvars host
      "openshift_master_identity_providers" = .ok (.vlist l))
    (h2 : template_var hostvars host
      "openshift_master_manage_htpasswd" = .ok mp)
    (hwf : ∀ idp ∈ l, idpWellFormed idp = true) :
    (check_htpasswd_provider hostvars host ≠ .ok () ↔
       l ≠ [] ∧ to_bool mp = false ∧
       l.any (fun idp => idpIsHtpasswd idp && idpHasOldKey idp) = true)
  ∧ (∀ m, check_htpasswd_provider hostvars host = .error m →
       ∃ k ∈ old_keys, m = htpasswd_msg k) := by
  simp only [check_htpasswd_provider, h1, h2, bind, Except.bind]
  cases l with
  | nil =>
    simp [pyTruthy, except_pure_eq]
  | cons idp rest =>
    have hne : (AVal.vlist (idp :: rest) |> pyTruthy) = true := by
      simp [pyTruthy]
    simp only [hne, Bool.not_true, Bool.false_eq_true, if_false]
    cases hmp : to_bool mp with
    | true =>
      simp [hmp, except_pure_eq]
    | false =>
      simp only [hmp, Bool.false_eq_true, if_false, except_pure_eq]
      constructor
      · rw [Ne, htpasswdScan_ok_iff (idp :: rest) hwf]
        constructor
        · intro hna
          refine ⟨List.cons_ne_nil idp rest, trivial, ?_⟩
          cases ha : (idp :: rest).any
              (fun x => idpIsHtpasswd x && idpHasOldKey x) with
          | true => rfl
          | false =>
            exact absurd (List.all_eq_true.mpr (fun x hx => by
              have := List.any_eq_false.mp ha x hx
              simp [this])) hna
        · rintro ⟨-, -, ha⟩ hall
          obtain ⟨x, hx, hpx⟩ := List.any_eq_true.mp ha
          have := List.all_eq_true.mp hall x hx
          simp [hpx] at this
      · intro m hm
        exact htpasswdScan_error (idp :: rest) hwf m hm

/-- Witness for C5: a single HTPasswdPasswordIdentityProvider entry with
the legacy key "filename" and an unset manage flag makes the check
fail. -/
theorem check_htpasswd_provider_witness :
    check_htpasswd_provider hvC5 "h" ≠ .ok () :=
  (check_htpasswd_provider_spec hvC5 "h" [idpC5] .vnone rfl rfl
      (fun idp hidp => by
        simp only [List.mem_singleton] at hidp
        subst hidp
        rfl)).1.mpr
    ⟨List.cons_ne_nil idpC5 [], rfl, rfl⟩

/-! ## C1: run -/

theorem run_checks_ok_lookup (hostvars : HostVars) (host : String)
    (h : run_checks hostvars host = .ok ()) :
    ∃ vars, lookupHost hostvars host = some vars := by
  cases htv : template_var hostvars host "ansible_distribution" with
  | error e =>
    simp only [run_checks, htv, bind, Except.bind] at h
    exact Except.noConfusion h
  | ok distro => exact template_var_ok_lookup htv

theorem runHostsLoop_ok (hostvars : HostVars) (l : List String)
    (hall : ∀ h ∈ l, run_checks hostvars h = .ok ()) :
    runHostsLoop hostvars l = .ok () := by
  induction l with
  | nil => rfl
  | cons h l ih =>
    simp only [runHostsLoop, hall h (List.mem_cons_self h l)]
    exact ih (fun x hx => hall x (List.mem_cons_of_mem h hx))

/-- C1: for every invocation of `run` with a non-empty `check_hosts`
list in which every listed host passes all checks, `run` returns the
result record with `changed = false`, `failed = false` and the message
"Sanity Checks passed". -/
theorem run_all_checks_pass (check_hosts : List String)
    (hostvars : HostVars) (hne : check_hosts ≠ [])
    (hall : ∀ h ∈ check_hosts, run_checks hostvars h = .ok ()) :
    run check_hosts hostvars =
      .ok { changed := false, failed := false,
            msg := "Sanity Checks passed" } := by
  have hce : check_hosts.isEmpty = false := by
    cases check_hosts with
    | nil => exact absurd rfl hne
    | cons h l => rfl
  obtain ⟨h0, l0, hch⟩ : ∃ h0 l0, check_hosts = h0 :: l0 := by
    cases check_hosts with
    | nil => exact absurd rfl hne
    | cons h l => exact ⟨h, l, rfl⟩
  have hhv : hostvars.isEmpty = false := by
    obtain ⟨vars, hlk⟩ := run_checks_ok_lookup hostvars h0
      (hall h0 (by rw [hch]; exact List.mem_cons_self h0 l0))
    have hnn := lookupHost_ne_nil hlk
    cases hostvars with
    | nil => exact absurd rfl hnn
    | cons p l => rfl
  simp only [run, hce, hhv, Bool.false_eq_true, if_false, bind,
    Except.bind, runHostsLoop_ok hostvars check_hosts hall,
    except_pure_eq]

/-- Witness for C1: the end-to-end example of the spec — one host with
deployment type "origin", image tag "latest", default network plugins,
and nothing else set. -/
theorem run_all_checks_pass_witness :
    run ["host1"] hvC1good =
      .ok { changed := false, failed := false,
            msg := "Sanity Checks passed" } :=
  run_all_checks_pass ["host1"] hvC1good (by simp)
    (fun h hm => by
      simp only [List.mem_singleton] at hm
      subst hm
      rfl)

end SanityChecks
